import Mathlib

/-!
Verification development for the `pythonslitherrisc` simulator.

Shallow embedding of the Python sources into Lean 4:

* `src/isa.py`       — `InstructionType`, `Opcode`, `Instruction.decode`, `Instruction.encode`
* `src/registers.py` — `Flags`, `RegisterFile`
* `src/memory.py`    — `CacheLine`, `Cache`, `MemorySystem` (the canonical 32/128-line,
                       8-words-per-line version adopted by the specification)
* `src/pipeline.py`  — `PipelineRegister`, `Pipeline` and its five stages plus `step`

Modelling conventions (Python → Lean):

* Python unbounded `int` is `Int`.  The `numpy.int64` backing-store cells are modelled
  as `Int`, with the one operation that can receive an arbitrary int — the raw store
  in `MemorySystem.write` — modelling numpy's `OverflowError` for values outside
  `[-2⁶³, 2⁶³)`.  Every other value stored into the array is already masked to 32 bits
  (`load_program`) or copied from cells/cache words that are (`flush_cache_line`,
  refills), so those assignments cannot overflow and are plain stores.
* Python `x & m` with a mask `m = 2^k - 1` is `x % 2^k` (`Int.emod`), which agrees with
  Python's two's-complement semantics for every sign of `x`.  Bit tests `x & b` against a
  single bit and `x | m` against a non-negative value use `Int.land` / `Int.lor`, which
  have Python's two's-complement semantics.
* Python `x // y` and `x % y` with positive `y` are `Int.ediv` / `Int.emod` (identical to
  floor division for positive divisors, which is what Python uses).  The ALU's `//`/`%`
  with arbitrary sign use `Int.fdiv` / `Int.fmod` (Python floor semantics).
* Python `x >> n` is `Int.shiftRight x n` (arithmetic shift; agrees with Python on
  negatives) and `x << n` is multiplication by `2^n` (`pyShiftLeft`), which is Python's
  semantics for every integer `x`.
* Mutation is explicit state passing; a Python method that can raise returns
  `Except PyError`.  Exception messages are elided (`PyError` is a bare tag).
* `print` debugging calls are observationally irrelevant and dropped.
-/

/-- A raised Python exception (messages elided). `attributeError` corresponds to
accessing a method that a class does not define; `overflowError` to assigning a
Python int outside the int64 range into a `np.int64` array. -/
inductive PyError where
  | valueError
  | attributeError
  | overflowError
deriving DecidableEq

/-- Python `x << n` for `n ≥ 0`: exact two's-complement semantics for every `x : Int`. -/
def pyShiftLeft (x : Int) (n : Nat) : Int := x * 2 ^ n

/-- Python `v & 0xFFFFFFFF` (the "Ensure 32-bit value" mask used throughout the source). -/
def pyMask32 (v : Int) : Int := v % 4294967296

/-- `src/isa.py` — `class InstructionType(Enum)`. -/
inductive InstructionType where
  | ARITHMETIC
  | MEMORY
  | CONTROL
deriving DecidableEq

/-- `src/isa.py` — `class Opcode(Enum)`. -/
inductive Opcode where
  | ADD | ADDS | ADDI | ADDIS | SUB | SUBS | SUBI | SUBIS
  | MUL | MULI | DIV | DIVI | AND | ANDI | OR | ORI
  | XOR | XORI | SHL | SHR | CMP | MOD | MODI | MOV | MOVI
  | LDR | STR
  | JMP | BEQ | BLT | CAL | FLUSH
deriving DecidableEq

namespace Opcode

/-- The numeric value of each `Opcode` member, exactly as in `src/isa.py`. -/
def value : Opcode → Int
  | ADD => 0x00 | ADDS => 0x01 | ADDI => 0x02 | ADDIS => 0x03
  | SUB => 0x04 | SUBS => 0x05 | SUBI => 0x06 | SUBIS => 0x07
  | MUL => 0x08 | MULI => 0x09 | DIV => 0x0A | DIVI => 0x0B
  | AND => 0x0C | ANDI => 0x0D | OR => 0x0E | ORI => 0x0F
  | XOR => 0x10 | XORI => 0x11 | SHL => 0x12 | SHR => 0x13
  | CMP => 0x14 | MOD => 0x15 | MODI => 0x16 | MOV => 0x17 | MOVI => 0x18
  | LDR => 0x20 | STR => 0x21
  | JMP => 0x30 | BEQ => 0x31 | BLT => 0x32 | CAL => 0x33 | FLUSH => 0x34

/-- Python `Opcode(v)`: enum lookup by value; `none` models the `ValueError` branch of
`Instruction.decode` (which returns `None` on it). -/
def ofValue (v : Int) : Option Opcode :=
  if v = 0x00 then some ADD else if v = 0x01 then some ADDS
  else if v = 0x02 then some ADDI else if v = 0x03 then some ADDIS
  else if v = 0x04 then some SUB else if v = 0x05 then some SUBS
  else if v = 0x06 then some SUBI else if v = 0x07 then some SUBIS
  else if v = 0x08 then some MUL else if v = 0x09 then some MULI
  else if v = 0x0A then some DIV else if v = 0x0B then some DIVI
  else if v = 0x0C then some AND else if v = 0x0D then some ANDI
  else if v = 0x0E then some OR else if v = 0x0F then some ORI
  else if v = 0x10 then some XOR else if v = 0x11 then some XORI
  else if v = 0x12 then some SHL else if v = 0x13 then some SHR
  else if v = 0x14 then some CMP else if v = 0x15 then some MOD
  else if v = 0x16 then some MODI else if v = 0x17 then some MOV
  else if v = 0x18 then some MOVI
  else if v = 0x20 then some LDR else if v = 0x21 then some STR
  else if v = 0x30 then some JMP else if v = 0x31 then some BEQ
  else if v = 0x32 then some BLT else if v = 0x33 then some CAL
  else if v = 0x34 then some FLUSH
  else none

end Opcode

/-- `src/isa.py` — `@dataclass class Instruction`. The field `type` is a Lean keyword, so
it is embedded as `ty`; everything else keeps its source name. -/
structure Instruction where
  ty : InstructionType
  opcode : Opcode
  rd : Int
  rs1 : Int
  rs2 : Int
  imm : Int
deriving DecidableEq

namespace Instruction

/-- `src/isa.py` lines 59–121 — `Instruction.decode(word)`. Field extraction
`(word >> k) & (2^j - 1)` is `(word >> k) % 2^j`; the sign-extension `imm |= 0x...`
ORs a non-negative bit pattern onto the extracted (non-negative) immediate, exactly as
in Python, so a "negative" decoded immediate is the 32-bit unsigned pattern.
The guard `opcode in [Opcode.JMP.value, Opcode.CAL.value, Opcode.FLUSH.value]` compares
the 3-bit control opcode field with the enum values 0x30/0x33/0x34, exactly as the
source does. -/
def decode (word : Int) : Option Instruction :=
  let instr_type : Int := (Int.shiftRight word 30) % 4
  let fields :
      Int × Int × Int × Int × Int :=
    if instr_type = 0 then
      ((Int.shiftRight word 25) % 32, (Int.shiftRight word 20) % 32,
       (Int.shiftRight word 15) % 32, (Int.shiftRight word 10) % 32,
       word % 1024)
    else if instr_type = 1 then
      ((Int.shiftRight word 28) % 4, (Int.shiftRight word 23) % 32,
       (Int.shiftRight word 18) % 32, 0,
       word % 262144)
    else
      let opcode := (Int.shiftRight word 27) % 8
      if opcode = Opcode.JMP.value ∨ opcode = Opcode.CAL.value ∨
          opcode = Opcode.FLUSH.value then
        (opcode, 0, (Int.shiftRight word 22) % 32, 0, 0)
      else
        (opcode, 0, 0, 0, word % 134217728)
  let (opcode, rd, rs1, rs2, imm) := fields
  let imm :=
    if instr_type = 0 then
      if Int.land imm 0x200 ≠ 0 then Int.lor imm 0xFFFFFC00 else imm
    else if instr_type = 1 then
      if Int.land imm 0x20000 ≠ 0 then Int.lor imm 0xFFFC0000 else imm
    else
      if Int.land imm 0x4000000 ≠ 0 then Int.lor imm 0xF8000000 else imm
  match Opcode.ofValue (Int.lor opcode (pyShiftLeft instr_type 5)) with
  | none => none
  | some opcode_enum =>
    let instr_type_enum :=
      if instr_type = 0 then InstructionType.ARITHMETIC
      else if instr_type = 1 then InstructionType.MEMORY
      else InstructionType.CONTROL
    some { ty := instr_type_enum, opcode := opcode_enum,
           rd := rd, rs1 := rs1, rs2 := rs2, imm := imm }

/-- `src/isa.py` lines 123–149 — `Instruction.encode()`. Each `word |= (f & mask) << k`
is the OR of disjoint non-negative fields; masks `& (2^j - 1)` are `% 2^j`. -/
def encode (self : Instruction) : Int :=
  match self.ty with
  | InstructionType.ARITHMETIC =>
    Int.lor (Int.lor (Int.lor (Int.lor (Int.lor 0
      (pyShiftLeft (self.opcode.value % 32) 25))
      (pyShiftLeft (self.rd % 32) 20))
      (pyShiftLeft (self.rs1 % 32) 15))
      (pyShiftLeft (self.rs2 % 32) 10))
      (self.imm % 1024)
  | InstructionType.MEMORY =>
    Int.lor (Int.lor (Int.lor (Int.lor (pyShiftLeft 1 30)
      (pyShiftLeft (self.opcode.value % 4) 28))
      (pyShiftLeft (self.rd % 32) 23))
      (pyShiftLeft (self.rs1 % 32) 18))
      (self.imm % 262144)
  | InstructionType.CONTROL =>
    let word := Int.lor (pyShiftLeft 2 30) (pyShiftLeft (self.opcode.value % 8) 27)
    if self.opcode = Opcode.JMP ∨ self.opcode = Opcode.CAL ∨
        self.opcode = Opcode.FLUSH then
      Int.lor word (pyShiftLeft (self.rs1 % 32) 22)
    else
      Int.lor word (self.imm % 134217728)

end Instruction

/-- `src/registers.py` — `@dataclass class Flags`. The `error` flag exists but is never
set by the modelled paths. -/
structure Flags where
  zero : Bool := false
  negative : Bool := false
  carry : Bool := false
  overflow : Bool := false
  error : Bool := false
deriving DecidableEq

/-- `src/registers.py` lines 22–27 — `Flags.update`. -/
def Flags.update (self : Flags) (result : Int) (carry : Bool) (overflow : Bool) : Flags :=
  { self with
    zero := result = 0,
    negative := Int.land result 0x80000000 ≠ 0,
    carry := carry,
    overflow := overflow }

/-- `src/registers.py` — `class RegisterFile`: 32 general registers plus PC/LR/SP and
flags (SP initialised to 0x1000). -/
structure RegisterFile where
  registers : List Int
  pc : Int
  lr : Int
  sp : Int
  flags : Flags
deriving DecidableEq

namespace RegisterFile

/-- `RegisterFile.__init__`. -/
def new : RegisterFile :=
  { registers := List.replicate 32 0, pc := 0, lr := 0, sp := 0x1000, flags := {} }

/-- `src/registers.py` lines 61–81 — `RegisterFile.get`. The special-register indices
are `PC = 32`, `LR = 33`, `SP = 34`, `XZR = 36`; any other out-of-range index raises
`ValueError`. -/
def get (self : RegisterFile) (index : Int) : Except PyError Int :=
  if index = 36 then .ok 0
  else if 0 ≤ index ∧ index < 32 then .ok (self.registers.getD index.toNat 0)
  else if index = 32 then .ok self.pc
  else if index = 33 then .ok self.lr
  else if index = 34 then .ok self.sp
  else .error .valueError

/-- `src/registers.py` lines 83–104 — `RegisterFile.set`: truncates to 32 bits, ignores
writes to R0/XZR, raises `ValueError` on an invalid index. -/
def set (self : RegisterFile) (index : Int) (value : Int) : Except PyError RegisterFile :=
  let value := pyMask32 value
  if index = 0 ∨ index = 36 then .ok self
  else if 0 < index ∧ index < 32 then
    .ok { self with registers := self.registers.set index.toNat value }
  else if index = 32 then .ok { self with pc := value }
  else if index = 33 then .ok { self with lr := value }
  else if index = 34 then .ok { self with sp := value }
  else .error .valueError

/-- `RegisterFile.update_flags`. -/
def update_flags (self : RegisterFile) (result : Int) (carry : Bool := false)
    (overflow : Bool := false) : RegisterFile :=
  { self with flags := self.flags.update result carry overflow }

/-- `RegisterFile.get_zero_flag`. -/
def get_zero_flag (self : RegisterFile) : Bool := self.flags.zero

/-- `RegisterFile.get_negative_flag`. -/
def get_negative_flag (self : RegisterFile) : Bool := self.flags.negative

/-- The pipeline's DECODE stage (src/pipeline.py lines 228–231) reads operands via
`self.registers.read(...)`.  `class RegisterFile` in `src/registers.py` defines
`get`, `set`, `update_flags`, the flag getters, `reset` and `dump` — but no method
named `read` — so in Python this attribute lookup raises `AttributeError`, which is
what this embedding of the call returns. -/
def read (_ : RegisterFile) (_ : Int) : Except PyError Int :=
  .error .attributeError

end RegisterFile

/-- `src/memory.py` — `@dataclass class CacheLine` (the canonical 8-words-per-line
version; `__post_init__` defaults `data` to eight zero words). -/
structure CacheLine where
  valid : Bool := false
  tag : Int := 0
  data : List Int := List.replicate 8 0
  dirty : Bool := false
deriving DecidableEq

/-- `src/memory.py` — `class Cache` (direct-mapped, with write-miss de-duplication
state `last_miss_addr` and the instruction-fetch counter). -/
structure Cache where
  size : Int
  line_size : Int
  access_time : Int
  lines : List CacheLine
  hits : Int := 0
  misses : Int := 0
  last_miss_addr : Option Int := none
  instruction_fetch_count : Int := 0
deriving DecidableEq

namespace Cache

/-- `Cache.__init__(size, line_size, access_time)`: `size` fresh lines, each with the
`CacheLine()` default of eight zero data words. -/
def new (size line_size access_time : Int) : Cache :=
  { size := size, line_size := line_size, access_time := access_time,
    lines := List.replicate size.toNat {} }

/-- `src/memory.py` lines 34–44 — `Cache.reset`: invalidate every line and zero the
counters (line data becomes `[0] * line_size`). -/
def reset (self : Cache) : Cache :=
  { self with
    lines := List.replicate self.lines.length
      { valid := false, tag := 0, data := List.replicate self.line_size.toNat 0,
        dirty := false },
    hits := 0, misses := 0, last_miss_addr := none, instruction_fetch_count := 0 }

/-- `src/memory.py` lines 46–48 — `Cache.get_line_index(address)`:
`(address // self.line_size) % self.size` (no `>> 2` on the byte address). -/
def get_line_index (self : Cache) (address : Int) : Int :=
  (address / self.line_size) % self.size

/-- `src/memory.py` lines 50–52 — `Cache.get_tag(address)`:
`address // (self.size * self.line_size)`. -/
def get_tag (self : Cache) (address : Int) : Int :=
  address / (self.size * self.line_size)

/-- `src/memory.py` lines 54–56 — `Cache.get_offset(address)`:
`address % self.line_size`. -/
def get_offset (self : Cache) (address : Int) : Int :=
  address % self.line_size

/-- `src/memory.py` lines 58–87 — `Cache.read`.  Returns `(hit, data, cycles)` together
with the updated cache.  Hits are only counted for data reads; misses are de-duplicated
against `last_miss_addr` and, for instruction fetches, only counted on the first fetch. -/
def read (self : Cache) (address : Int) (is_instruction_fetch : Bool) :
    (Bool × Option Int × Int) × Cache :=
  let line_index := self.get_line_index address
  let tag := self.get_tag address
  let offset := self.get_offset address
  let line := self.lines.getD line_index.toNat {}
  if line.valid ∧ line.tag = tag then
    let self := if ¬ is_instruction_fetch then { self with hits := self.hits + 1 } else self
    ((true, some (line.data.getD offset.toNat 0), self.access_time), self)
  else
    let self :=
      if ¬ is_instruction_fetch ∨ self.instruction_fetch_count = 0 then
        if some address ≠ self.last_miss_addr then
          { self with misses := self.misses + 1, last_miss_addr := some address }
        else self
      else self
    let self :=
      if is_instruction_fetch then
        { self with instruction_fetch_count := self.instruction_fetch_count + 1 }
      else self
    ((false, none, self.access_time), self)

/-- `src/memory.py` lines 89–120 — `Cache.write`.  Write-allocate: on a miss the line is
claimed (valid/tag set) and only `data[offset]` is overwritten (the other words of the
line are left as they were, exactly as in the source). -/
def write (self : Cache) (address : Int) (value : Int) : (Bool × Int) × Cache :=
  let line_index := self.get_line_index address
  let tag := self.get_tag address
  let offset := self.get_offset address
  let line := self.lines.getD line_index.toNat {}
  if line.valid ∧ line.tag = tag then
    let line := { line with
      data := line.data.set offset.toNat (pyMask32 value),
      dirty := true }
    let self := { self with
      hits := self.hits + 1,
      lines := self.lines.set line_index.toNat line }
    ((true, self.access_time), self)
  else
    let self :=
      if some address ≠ self.last_miss_addr then
        { self with misses := self.misses + 1, last_miss_addr := some address }
      else self
    let line := { line with
      valid := true,
      tag := tag,
      data := line.data.set offset.toNat (pyMask32 value),
      dirty := true }
    let self := { self with lines := self.lines.set line_index.toNat line }
    ((false, self.access_time), self)

end Cache

/-- Modelled from the spec (§4.3 "Address arithmetic"), for comparison with the code's
`Cache.get_offset` / `get_line_index` / `get_tag`: the specified decomposition first
converts the byte address to a word index `a >> 2`. -/
def specWordIdx (a : Int) : Int := Int.shiftRight a 2

/-- Modelled from the spec: `offset = word_idx mod line_size`. -/
def specOffset (line_size a : Int) : Int := specWordIdx a % line_size

/-- Modelled from the spec: `index = (word_idx / line_size) mod size`. -/
def specIndex (size line_size a : Int) : Int := (specWordIdx a / line_size) % size

/-- Modelled from the spec: `tag = word_idx / (size * line_size)`. -/
def specTag (size line_size a : Int) : Int := specWordIdx a / (size * line_size)

/-- `src/memory.py` — `class MemorySystem` (backing store behind L1/L2 write-through
caches; `memory` is the word-indexed `np.int64` backing array, modelled as `List Int`). -/
structure MemorySystem where
  memory : List Int
  cache_enabled : Bool
  pipeline_enabled : Bool
  L1_cache : Cache
  L2_cache : Cache
  memory_access_time : Int := 100
  last_fetch_addr : Option Int := none
  cycles : Int := 0
  program_end : Int := 0
deriving DecidableEq

namespace MemorySystem

/-- `MemorySystem.__init__(memory_size=16384, cache_enabled=True, pipeline_enabled=True)`:
zeroed backing store, an L1 of 32 lines × 8 words (1 cycle) and an L2 of 128 lines ×
8 words (10 cycles). -/
def new (memory_size : Nat := 16384) (cache_enabled : Bool := true)
    (pipeline_enabled : Bool := true) : MemorySystem :=
  { memory := List.replicate memory_size 0,
    cache_enabled := cache_enabled,
    pipeline_enabled := pipeline_enabled,
    L1_cache := Cache.new 32 8 1,
    L2_cache := Cache.new 128 8 10 }

/-- `src/memory.py` lines 164–171 — `MemorySystem.reset`. -/
def reset (self : MemorySystem) : MemorySystem :=
  { self with
    memory := List.replicate self.memory.length 0,
    L1_cache := self.L1_cache.reset,
    L2_cache := self.L2_cache.reset,
    last_fetch_addr := none,
    cycles := 0,
    program_end := 0 }

/-- One iteration of the `load_program` loop body (`src/memory.py` lines 183–201):
store word `i` of the program at backing-store index `i` and, when the cache is
enabled, pre-load it into L1 using the *word index* `addr = i` (not the byte
address) for the line/tag/offset computation. -/
def load_step (self : MemorySystem) (i : Nat) (instruction : Int) : MemorySystem :=
  let addr : Int := i
  let self := { self with memory := self.memory.set i (pyMask32 instruction) }
  if self.cache_enabled then
    let line_index := self.L1_cache.get_line_index addr
    let tag := self.L1_cache.get_tag addr
    let offset := self.L1_cache.get_offset addr
    let line := self.L1_cache.lines.getD line_index.toNat {}
    let line :=
      if ¬ line.valid ∨ line.tag ≠ tag then
        { line with valid := true, tag := tag,
                    data := List.replicate self.L1_cache.line_size.toNat 0 }
      else line
    let line := { line with data := line.data.set offset.toNat (pyMask32 instruction) }
    { self with
      L1_cache := { self.L1_cache with
        lines := self.L1_cache.lines.set line_index.toNat line } }
  else self

/-- `src/memory.py` lines 173–204 — `MemorySystem.load_program(program)`: reset, then
run `load_step` over the program with its index, then record `program_end`. -/
def load_program (self : MemorySystem) (program : List Int) : MemorySystem :=
  let self := self.reset
  let self := (program.enum.foldl (fun m p => m.load_step p.1 p.2) self)
  { self with program_end := program.length }

/-- `src/memory.py` lines 206–288 — `MemorySystem.read(address, is_instruction_fetch)`.
Returns `((data, cycles), state)`; raises `ValueError` when the word index
`address // 4` is out of range.  Mirrors the source's order: range check,
cache-disabled path, the instruction-fetch `last_fetch_addr` short-circuit, L1 probe,
L2 probe with L1 refill (refilled line data zeroed except the fetched slot), and the
full miss path refilling both levels. -/
def read (self : MemorySystem) (address : Int) (is_instruction_fetch : Bool) :
    Except PyError ((Int × Int) × MemorySystem) :=
  let word_index := address / 4
  if ¬ (0 ≤ word_index ∧ word_index < (self.memory.length : Int)) then
    .error .valueError
  else if ¬ self.cache_enabled then
    let cycles := self.memory_access_time
    .ok ((self.memory.getD word_index.toNat 0, cycles),
         { self with cycles := self.cycles + cycles })
  else if is_instruction_fetch ∧ some address = self.last_fetch_addr then
    .ok ((self.memory.getD word_index.toNat 0, 0), self)
  else
    let self :=
      if is_instruction_fetch then { self with last_fetch_addr := some address }
      else self
    match self.L1_cache.read address is_instruction_fetch with
    | ((true, data, cycles1), L1) =>
      let self := { self with L1_cache := L1, cycles := self.cycles + cycles1 }
      .ok ((data.getD 0, cycles1), self)
    | ((false, _, cycles1), L1) =>
      let self := { self with L1_cache := L1 }
      match self.L2_cache.read address is_instruction_fetch with
      | ((true, data, cycles2), L2) =>
        let self := { self with L2_cache := L2 }
        let data := data.getD 0
        let line_index := self.L1_cache.get_line_index address
        let tag := self.L1_cache.get_tag address
        let offset := self.L1_cache.get_offset address
        let line := self.L1_cache.lines.getD line_index.toNat {}
        let line := { line with
          valid := true,
          tag := tag,
          data := (List.replicate self.L1_cache.line_size.toNat 0).set offset.toNat data }
        let self := { self with
          L1_cache := { self.L1_cache with
            lines := self.L1_cache.lines.set line_index.toNat line } }
        let cycles := cycles1 + cycles2
        .ok ((data, cycles), { self with cycles := self.cycles + cycles })
      | ((false, _, cycles2), L2) =>
        let self := { self with L2_cache := L2 }
        let data := self.memory.getD word_index.toNat 0
        let line_index := self.L1_cache.get_line_index address
        let tag := self.L1_cache.get_tag address
        let offset := self.L1_cache.get_offset address
        let line := self.L1_cache.lines.getD line_index.toNat {}
        let line := { line with
          valid := true,
          tag := tag,
          data := (List.replicate self.L1_cache.line_size.toNat 0).set offset.toNat data }
        let self := { self with
          L1_cache := { self.L1_cache with
            lines := self.L1_cache.lines.set line_index.toNat line } }
        let line_index2 := self.L2_cache.get_line_index address
        let tag2 := self.L2_cache.get_tag address
        let offset2 := self.L2_cache.get_offset address
        let line2 := self.L2_cache.lines.getD line_index2.toNat {}
        let line2 := { line2 with
          valid := true,
          tag := tag2,
          data := (List.replicate self.L2_cache.line_size.toNat 0).set offset2.toNat data }
        let self := { self with
          L2_cache := { self.L2_cache with
            lines := self.L2_cache.lines.set line_index2.toNat line2 } }
        let cycles := cycles1 + cycles2 + self.memory_access_time
        .ok ((data, cycles), { self with cycles := self.cycles + cycles })

/-- `src/memory.py` lines 290–321 — `MemorySystem.write(address, value)`.  Returns
`(cycles, state)`.  The backing store gets the *raw* `value` (no 32-bit mask) in both
the cache-disabled and the write-through path; only the cache levels mask.  The store
`self.memory[word_index] = value` assigns a Python int into the `np.int64` array, so
a value outside `[-2⁶³, 2⁶³)` raises `OverflowError` — the first statement of either
branch, before any cache is touched. -/
def write (self : MemorySystem) (address : Int) (value : Int) :
    Except PyError (Int × MemorySystem) :=
  let word_index := address / 4
  if ¬ (0 ≤ word_index ∧ word_index < (self.memory.length : Int)) then
    .error .valueError
  else if ¬ self.cache_enabled then
    if value < -9223372036854775808 ∨ 9223372036854775808 ≤ value then
      .error .overflowError
    else
    let self := { self with memory := self.memory.set word_index.toNat value }
    let cycles := self.memory_access_time
    .ok (cycles, { self with cycles := self.cycles + cycles })
  else
    if value < -9223372036854775808 ∨ 9223372036854775808 ≤ value then
      .error .overflowError
    else
    let self := { self with memory := self.memory.set word_index.toNat value }
    let ((_, cycles1), L1) := self.L1_cache.write address value
    let self := { self with L1_cache := L1 }
    let ((_, cycles2), L2) := self.L2_cache.write address value
    let self := { self with L2_cache := L2 }
    let cycles := cycles1 + cycles2 + self.memory_access_time
    .ok (cycles, { self with cycles := self.cycles + cycles })

/-- `src/memory.py` lines 331–356 — `MemorySystem.flush_cache_line(address)`: write the
matching L1/L2 line's first four words back to the addresses
`tag * size * 4 + line_index * 4 + i` and clear the dirty bit (a no-op when the cache
is disabled). -/
def flush_cache_line (self : MemorySystem) (address : Int) : MemorySystem :=
  if ¬ self.cache_enabled then self
  else
    let flushOne (mem : List Int) (c : Cache) : List Int × Cache :=
      let line_index := c.get_line_index address
      let tag := c.get_tag address
      let line := c.lines.getD line_index.toNat {}
      if line.valid ∧ line.tag = tag then
        let mem := (List.range 4).foldl
          (fun mem (i : Nat) =>
            let mem_addr := tag * c.size * 4 + line_index * 4 + (i : Int)
            mem.set mem_addr.toNat (line.data.getD i 0))
          mem
        (mem, { c with lines := c.lines.set line_index.toNat { line with dirty := false } })
      else (mem, c)
    let (mem, L1) := flushOne self.memory self.L1_cache
    let self := { self with memory := mem, L1_cache := L1 }
    let (mem, L2) := flushOne self.memory self.L2_cache
    { self with memory := mem, L2_cache := L2 }

end MemorySystem

/-- `src/pipeline.py` — `class PipelineStage(Enum)`. -/
inductive PipelineStage where
  | FETCH | DECODE | EXECUTE | MEMORY | WRITEBACK
deriving DecidableEq

/-- `src/pipeline.py` — `class HazardType(Enum)`. -/
inductive HazardType where
  | NONE | RAW | WAR | WAW | CONTROL | STRUCTURAL
deriving DecidableEq

/-- `src/pipeline.py` — `@dataclass class PipelineRegister`. -/
structure PipelineRegister where
  instruction : Option Instruction := none
  pc : Int := 0
  rs1 : Int := 0
  rs2 : Int := 0
  rd : Int := 0
  imm : Int := 0
  alu_result : Int := 0
  memory_data : Int := 0
  write_back : Bool := false
  hazard : HazardType := HazardType.NONE
deriving DecidableEq

/-- `src/pipeline.py` — `class Pipeline`.  The `self.stages` dictionary is embedded as
five latch fields (`stages`/`setStage` below recover dictionary access). -/
structure Pipeline where
  memory : MemorySystem
  registers : RegisterFile
  pc : Int := 0
  fetchReg : PipelineRegister := {}
  decodeReg : PipelineRegister := {}
  executeReg : PipelineRegister := {}
  memoryReg : PipelineRegister := {}
  writebackReg : PipelineRegister := {}
  stalled : Bool := false
  flushed : Bool := false
  cycles : Int := 0
  instructions : Int := 0
  stall_count : Int := 0
  flush_count : Int := 0
  enabled : Bool := true
  sequential_stage : Int := 0
deriving DecidableEq

namespace Pipeline

/-- `self.stages[stage]`. -/
def stages (self : Pipeline) : PipelineStage → PipelineRegister
  | PipelineStage.FETCH => self.fetchReg
  | PipelineStage.DECODE => self.decodeReg
  | PipelineStage.EXECUTE => self.executeReg
  | PipelineStage.MEMORY => self.memoryReg
  | PipelineStage.WRITEBACK => self.writebackReg

/-- In-place mutation of `self.stages[stage]`. -/
def setStage (self : Pipeline) : PipelineStage → PipelineRegister → Pipeline
  | PipelineStage.FETCH, r => { self with fetchReg := r }
  | PipelineStage.DECODE, r => { self with decodeReg := r }
  | PipelineStage.EXECUTE, r => { self with executeReg := r }
  | PipelineStage.MEMORY, r => { self with memoryReg := r }
  | PipelineStage.WRITEBACK, r => { self with writebackReg := r }

/-- `Pipeline.__init__(memory, registers)`. -/
def new (memory : MemorySystem) (registers : RegisterFile) : Pipeline :=
  { memory := memory, registers := registers }

/-- `src/pipeline.py` lines 80–112 — `Pipeline.detect_hazard(stage)`.  Python
truthiness of `x.instruction` is `Option.isSome`; all register comparisons read the
latch fields exactly as the source does. -/
def detect_hazard (self : Pipeline) (stage : PipelineStage) : HazardType :=
  let current := self.stages stage
  match current.instruction with
  | none => HazardType.NONE
  | some ci =>
    let execute := self.executeReg
    let memory := self.memoryReg
    if execute.instruction.isSome ∧ execute.write_back ∧
        (ci.rs1 = execute.rd ∨ ci.rs2 = execute.rd) ∧ execute.rd ≠ 0 then
      HazardType.RAW
    else if memory.instruction.isSome ∧ memory.write_back ∧
        (ci.rs1 = memory.rd ∨ ci.rs2 = memory.rd) ∧ memory.rd ≠ 0 then
      HazardType.RAW
    else if current.write_back ∧ current.rd ≠ 0 ∧
        execute.write_back ∧ current.rd = execute.rd then
      HazardType.WAW
    else if current.write_back ∧ current.rd ≠ 0 ∧
        memory.write_back ∧ current.rd = memory.rd then
      HazardType.WAW
    else if current.write_back ∧ current.rd ≠ 0 ∧ execute.instruction.isSome ∧
        (∃ xi, execute.instruction = some xi ∧ (current.rd = xi.rs1 ∨ current.rd = xi.rs2)) then
      HazardType.WAR
    else if current.write_back ∧ current.rd ≠ 0 ∧ memory.instruction.isSome ∧
        (∃ mi, memory.instruction = some mi ∧ (current.rd = mi.rs1 ∨ current.rd = mi.rs2)) then
      HazardType.WAR
    else HazardType.NONE

/-- `src/pipeline.py` lines 114–144 — `Pipeline.forward_data(stage)`. -/
def forward_data (self : Pipeline) (stage : PipelineStage) : Pipeline :=
  if stage = PipelineStage.FETCH then self
  else
    let current := self.stages stage
    match current.instruction with
    | none => self
    | some ci =>
      let execute := self.executeReg
      let current :=
        if execute.instruction.isSome ∧ execute.write_back then
          let current :=
            if ci.rs1 = execute.rd ∧ execute.rd ≠ 0 then
              { current with rs1 := execute.alu_result }
            else current
          if ci.rs2 = execute.rd ∧ execute.rd ≠ 0 then
            { current with rs2 := execute.alu_result }
          else current
        else current
      let memory := self.memoryReg
      let current :=
        if memory.instruction.isSome ∧ memory.write_back then
          let fwd : Int :=
            if (∃ mi, memory.instruction = some mi ∧
                  mi.ty = InstructionType.MEMORY ∧ mi.opcode = Opcode.LDR) then
              memory.memory_data
            else memory.alu_result
          let current :=
            if ci.rs1 = memory.rd ∧ memory.rd ≠ 0 ∧ memory.rd ≠ execute.rd then
              { current with rs1 := fwd }
            else current
          if ci.rs2 = memory.rd ∧ memory.rd ≠ 0 ∧ memory.rd ≠ execute.rd then
            { current with rs2 := fwd }
          else current
        else current
      self.setStage stage current

/-- `src/pipeline.py` lines 160–162 — `Pipeline.stall_pipeline`. -/
def stall_pipeline (self : Pipeline) : Pipeline :=
  { self with stalled := true }

/-- `src/pipeline.py` lines 164–169 — `Pipeline.flush_pipeline`: sets `flushed` and
clears `instruction` and `write_back` in **all five** stage latches.  Note that
`flush_count` is not touched (no statement in the source increments it). -/
def flush_pipeline (self : Pipeline) : Pipeline :=
  let clear (r : PipelineRegister) : PipelineRegister :=
    { r with instruction := none, write_back := false }
  { self with
    flushed := true,
    fetchReg := clear self.fetchReg,
    decodeReg := clear self.decodeReg,
    executeReg := clear self.executeReg,
    memoryReg := clear self.memoryReg,
    writebackReg := clear self.writebackReg }

/-- `src/pipeline.py` lines 146–158 — `Pipeline.handle_hazard(stage)`. -/
def handle_hazard (self : Pipeline) (stage : PipelineStage) : Pipeline :=
  match self.detect_hazard stage with
  | HazardType.NONE => self
  | HazardType.CONTROL => self.flush_pipeline
  | HazardType.RAW => self.forward_data stage
  | HazardType.WAR => self.stall_pipeline
  | HazardType.WAW => self.stall_pipeline
  | HazardType.STRUCTURAL => self

/-- `src/pipeline.py` lines 171–202 — `Pipeline.fetch`.  The body's `try` never
propagates: a raising `memory.read` (impossible after the PC range check, but modelled
anyway) lands in the `except` branch, which installs a bubble. -/
def fetch (self : Pipeline) : Pipeline :=
  if self.stalled ∨ self.flushed then self
  else if self.pc < 0 ∨ self.pc ≥ (self.memory.memory.length : Int) * 4 then
    { self with fetchReg := { self.fetchReg with instruction := none } }
  else
    match self.memory.read self.pc true with
    | Except.error _ =>
      { self with fetchReg := { self.fetchReg with instruction := none } }
    | Except.ok ((instruction_data, _), m) =>
      let self := { self with memory := m }
      match Instruction.decode instruction_data with
      | none =>
        { self with fetchReg := { self.fetchReg with instruction := none } }
      | some instruction =>
        let self := { self with
          fetchReg := { self.fetchReg with
            instruction := some instruction, pc := self.pc } }
        self.handle_hazard PipelineStage.FETCH

/-- `src/pipeline.py` lines 204–239 — `Pipeline.decode`.  The operand reads go through
`self.registers.read(...)` (see `RegisterFile.read`), so any instruction with
`rs1 != 0` or `rs2 != 0` raises `AttributeError` here, which propagates out of
`decode` (there is no `try` in this method). -/
def decode (self : Pipeline) : Except PyError Pipeline :=
  if self.stalled ∨ self.flushed then .ok self
  else
    match self.fetchReg.instruction with
    | none =>
      .ok { self with decodeReg := { self.decodeReg with instruction := none } }
    | some instruction =>
      let d := { self.decodeReg with
        instruction := some instruction,
        pc := self.fetchReg.pc,
        rs1 := instruction.rs1,
        rs2 := instruction.rs2,
        rd := instruction.rd,
        imm := instruction.imm }
      do
        let d ←
          if instruction.rs1 ≠ 0 then do
            let v ← self.registers.read instruction.rs1
            pure { d with rs1 := v }
          else pure d
        let d ←
          if instruction.rs2 ≠ 0 then do
            let v ← self.registers.read instruction.rs2
            pure { d with rs2 := v }
          else pure d
        let self := { self with decodeReg := d }
        let self := self.handle_hazard PipelineStage.DECODE
        pure (self.forward_data PipelineStage.DECODE)

/-- Python `x << n` inside the ALU: raises `ValueError` for a negative shift count. -/
def pyShlE (x n : Int) : Except PyError Int :=
  if n < 0 then .error .valueError else .ok (x * 2 ^ n.toNat)

/-- Python `x >> n` inside the ALU: raises `ValueError` for a negative shift count. -/
def pyShrE (x n : Int) : Except PyError Int :=
  if n < 0 then .error .valueError else .ok (Int.shiftRight x n.toNat)

/-- `src/pipeline.py` lines 241–362 — `Pipeline.execute`.  The ALU operates on the
freshly copied EXECUTE latch; `//` and `%` are Python floor division/modulo
(`Int.fdiv` / `Int.fmod`); divide-and-modulo-by-zero leave `result = 0`. -/
def execute (self : Pipeline) : Except PyError Pipeline :=
  if self.stalled ∨ self.flushed then .ok self
  else
    match self.decodeReg.instruction with
    | none =>
      .ok { self with executeReg := { self.executeReg with instruction := none } }
    | some instruction =>
      let e := { self.executeReg with
        instruction := some instruction,
        pc := self.decodeReg.pc,
        rs1 := self.decodeReg.rs1,
        rs2 := self.decodeReg.rs2,
        rd := self.decodeReg.rd,
        imm := self.decodeReg.imm }
      let self := { self with executeReg := e }
      do
        let (result, self, e) ← show Except PyError (Int × Pipeline × PipelineRegister) from
          match instruction.ty with
          | InstructionType.ARITHMETIC => do
            let (result, self) ← show Except PyError (Int × Pipeline) from
              match instruction.opcode with
              | Opcode.ADD => pure (e.rs1 + e.rs2, self)
              | Opcode.ADDS =>
                pure (e.rs1 + e.rs2,
                  { self with registers := self.registers.update_flags (e.rs1 + e.rs2) })
              | Opcode.ADDI => pure (e.rs1 + e.imm, self)
              | Opcode.ADDIS =>
                pure (e.rs1 + e.imm,
                  { self with registers := self.registers.update_flags (e.rs1 + e.imm) })
              | Opcode.SUB => pure (e.rs1 - e.rs2, self)
              | Opcode.SUBS =>
                pure (e.rs1 - e.rs2,
                  { self with registers := self.registers.update_flags (e.rs1 - e.rs2) })
              | Opcode.SUBI => pure (e.rs1 - e.imm, self)
              | Opcode.SUBIS =>
                pure (e.rs1 - e.imm,
                  { self with registers := self.registers.update_flags (e.rs1 - e.imm) })
              | Opcode.MUL => pure (e.rs1 * e.rs2, self)
              | Opcode.MULI => pure (e.rs1 * e.imm, self)
              | Opcode.DIV =>
                pure (if e.rs2 ≠ 0 then Int.fdiv e.rs1 e.rs2 else 0, self)
              | Opcode.DIVI =>
                pure (if e.imm ≠ 0 then Int.fdiv e.rs1 e.imm else 0, self)
              | Opcode.AND => pure (Int.land e.rs1 e.rs2, self)
              | Opcode.ANDI => pure (Int.land e.rs1 e.imm, self)
              | Opcode.OR => pure (Int.lor e.rs1 e.rs2, self)
              | Opcode.ORI => pure (Int.lor e.rs1 e.imm, self)
              | Opcode.XOR => pure (Int.xor e.rs1 e.rs2, self)
              | Opcode.XORI => pure (Int.xor e.rs1 e.imm, self)
              | Opcode.SHL => do
                let r ← pyShlE e.rs1 e.imm
                pure (r, self)
              | Opcode.SHR => do
                let r ← pyShrE e.rs1 e.imm
                pure (r, self)
              | Opcode.CMP =>
                pure (e.rs1 - e.rs2,
                  { self with registers := self.registers.update_flags (e.rs1 - e.rs2) })
              | Opcode.MOD =>
                pure (if e.rs2 ≠ 0 then Int.fmod e.rs1 e.rs2 else 0, self)
              | Opcode.MODI =>
                pure (if e.imm ≠ 0 then Int.fmod e.rs1 e.imm else 0, self)
              | Opcode.MOV => pure (e.rs1, self)
              | Opcode.MOVI => pure (e.imm, self)
              | _ => pure (0, self)
            pure (result, self, { e with write_back := true })
          | InstructionType.MEMORY =>
            let result :=
              match instruction.opcode with
              | Opcode.LDR => e.rs1 + e.imm
              | Opcode.STR => e.rs1 + e.imm
              | _ => 0
            pure (result, self, { e with write_back := instruction.opcode = Opcode.LDR })
          | InstructionType.CONTROL => do
            let self ←
              match instruction.opcode with
              | Opcode.JMP =>
                pure ({ self with pc := e.rs1 + e.imm }).flush_pipeline
              | Opcode.BEQ =>
                if self.registers.get_zero_flag then
                  pure ({ self with pc := e.pc + e.imm }).flush_pipeline
                else pure self
              | Opcode.BLT =>
                if self.registers.get_negative_flag then
                  pure ({ self with pc := e.pc + e.imm }).flush_pipeline
                else pure self
              | Opcode.CAL =>
                pure ({ self with pc := e.rs1 + e.imm }).flush_pipeline
              | Opcode.FLUSH =>
                pure { self with memory := self.memory.flush_cache_line e.rs1 }
              | _ => pure self
            pure (0, self, { self.executeReg with write_back := false })
        let e := { e with alu_result := result }
        let self := self.setStage PipelineStage.EXECUTE e
        let self := self.handle_hazard PipelineStage.EXECUTE
        pure (self.forward_data PipelineStage.EXECUTE)

/-- `src/pipeline.py` lines 364–406 — `Pipeline.memory_stage`.  `LDR` reads and `STR`
writes through `MemorySystem` (whose `ValueError` on a bad effective address
propagates, as in the source); afterwards the EXECUTE latch's instruction is cleared. -/
def memory_stage (self : Pipeline) : Except PyError Pipeline :=
  if self.stalled ∨ self.flushed then .ok self
  else
    match self.executeReg.instruction with
    | none => .ok self
    | some instruction =>
      let m := { self.memoryReg with
        instruction := some instruction,
        pc := self.executeReg.pc,
        rd := self.executeReg.rd,
        alu_result := self.executeReg.alu_result,
        write_back := self.executeReg.write_back }
      do
        let (m, self) ←
          if instruction.ty = InstructionType.MEMORY then
            if instruction.opcode = Opcode.LDR then do
              let ((data, _), mem) ← self.memory.read self.executeReg.alu_result false
              pure ({ m with alu_result := data, write_back := true },
                    { self with memory := mem })
            else if instruction.opcode = Opcode.STR then do
              let (_, mem) ← self.memory.write self.executeReg.alu_result self.executeReg.rs2
              pure ({ m with write_back := false }, { self with memory := mem })
            else pure (m, self)
          else pure (m, self)
        let self := { self with memoryReg := m }
        let self := { self with
          executeReg := { self.executeReg with instruction := none } }
        let self := self.handle_hazard PipelineStage.MEMORY
        pure (self.forward_data PipelineStage.MEMORY)

/-- `src/pipeline.py` lines 408–432 — `Pipeline.writeback`.  Retires whatever the
MEMORY latch holds; `instructions` is incremented for every non-bubble, whether or not
it wrote a register. -/
def writeback (self : Pipeline) : Except PyError Pipeline :=
  if self.stalled ∨ self.flushed then .ok self
  else
    match self.memoryReg.instruction with
    | none => .ok self
    | some instruction => do
      let result := self.memoryReg.alu_result
      let self ←
        if self.memoryReg.write_back ∧ instruction.rd ≠ 0 then do
          let regs ← self.registers.set instruction.rd result
          pure { self with registers := regs }
        else pure self
      let self := { self with
        memoryReg := { self.memoryReg with instruction := none } }
      pure { self with instructions := self.instructions + 1 }

/-- `src/pipeline.py` lines 467–516 — `Pipeline.step`.  Sequential mode walks the
`sequential_stage` cursor and increments `cycles` once per call; pipelined mode runs
the five stages in reverse order and then advances PC by 4 when neither `stalled` nor
`flushed` — and touches neither `cycles` nor the two flags. -/
def step (self : Pipeline) : Except PyError Pipeline :=
  if ¬ self.enabled then do
    let self ←
      if self.sequential_stage = 0 then
        pure { self.fetch with sequential_stage := 1 }
      else if self.sequential_stage = 1 then do
        let p ← self.decode
        pure { p with sequential_stage := 2 }
      else if self.sequential_stage = 2 then do
        let p ← self.execute
        pure { p with sequential_stage := 3 }
      else if self.sequential_stage = 3 then do
        let p ← self.memory_stage
        pure { p with sequential_stage := 4 }
      else if self.sequential_stage = 4 then do
        let p ← self.writeback
        let p := { p with sequential_stage := 0 }
        if ¬ p.stalled ∧ ¬ p.flushed then
          pure { p with pc := p.pc + 4, instructions := p.instructions + 1 }
        else pure p
      else pure self
    pure { self with cycles := self.cycles + 1 }
  else do
    let self ← self.writeback
    let self ← self.memory_stage
    let self ← self.execute
    let self ← self.decode
    let self := self.fetch
    if ¬ self.stalled ∧ ¬ self.flushed then
      pure { self with pc := self.pc + 4 }
    else
      pure self

/-- `Pipeline.run(num_cycles)`: iterate `step` (propagating a raised exception). -/
def stepN (self : Pipeline) : Nat → Except PyError Pipeline
  | 0 => .ok self
  | n + 1 => do
    let p ← self.step
    p.stepN n

end Pipeline

/-!
Embedding of `src/assembler.py`.  Python `str` values are embedded as `List Char`
(the character sequence of the string), so that every operation is structurally
recursive and kernel-computable; the `py...` helpers below implement exactly the
Python string primitives the assembler uses.  A Lean string literal `s` denotes the
Python string with characters `s.data`.
-/

/-- Python `str.split(sep)` for a single-character separator: splits at every
occurrence and keeps empty pieces (`"".split(c) == ['']`). -/
def pySplitChar (c : Char) : List Char → List (List Char)
  | [] => [[]]
  | x :: xs =>
    let r := pySplitChar c xs
    if x = c then [] :: r
    else
      match r with
      | [] => [[x]]
      | y :: ys => (x :: y) :: ys

/-- Python `str.startswith(pre)`. -/
def pyStartsWith : List Char → List Char → Bool
  | _, [] => true
  | [], _ :: _ => false
  | x :: xs, y :: ys => x = y ∧ pyStartsWith xs ys

/-- Python `str.endswith(suf)`. -/
def pyEndsWith (s suf : List Char) : Bool :=
  pyStartsWith s.reverse suf.reverse

/-- Python `str.strip()` (whitespace from both ends). -/
def pyStrip (s : List Char) : List Char :=
  ((s.dropWhile Char.isWhitespace).reverse.dropWhile Char.isWhitespace).reverse

/-- Python `str.lower()`. -/
def pyLower (s : List Char) : List Char := s.map Char.toLower

/-- Python `str.upper()`. -/
def pyUpper (s : List Char) : List Char := s.map Char.toUpper

/-- Python `str.split(None, 1)`: drop leading whitespace; the first whitespace-free
token, then (when non-empty after dropping the separating run) the untouched
remainder. -/
def pySplitWhitespace1 (s : List Char) : List (List Char) :=
  let s1 := s.dropWhile Char.isWhitespace
  match s1 with
  | [] => []
  | _ =>
    let tok := s1.takeWhile (fun c => ¬ c.isWhitespace)
    let rest := (s1.dropWhile (fun c => ¬ c.isWhitespace)).dropWhile Char.isWhitespace
    if rest.isEmpty then [tok] else [tok, rest]

/-- Python `str.split(c, 1)`. -/
def pySplitChar1 (c : Char) (s : List Char) : List (List Char) :=
  match pySplitChar c s with
  | [] => []
  | [x] => [x]
  | x :: rest => [x, (rest.map (List.cons c)).flatten.drop 1]

/-- Python `str.rsplit(c, 1)`. -/
def pyRSplitChar1 (c : Char) (s : List Char) : List (List Char) :=
  match (pySplitChar c s).reverse with
  | [] => []
  | [x] => [x]
  | y :: rest => [(rest.reverse.map (fun p => p ++ [c])).flatten.dropLast, y]

/-- The numeric value of a digit character under Python `int(..., base)`
(`0`–`9`, `a`–`f`, `A`–`F`), or `none`. -/
def pyDigitValue (c : Char) : Option Nat :=
  if c.isDigit then some (c.toNat - 48)
  else if 'a' ≤ c ∧ c ≤ 'f' then some (c.toNat - 97 + 10)
  else if 'A' ≤ c ∧ c ≤ 'F' then some (c.toNat - 65 + 10)
  else none

/-- Digit-string accumulator for `pyIntBase`. -/
def pyDigits (base : Nat) : List Char → Option Nat → Option Nat
  | [], acc => acc
  | c :: cs, acc =>
    match acc, pyDigitValue c with
    | some a, some d => if d < base then pyDigits base cs (some (a * base + d)) else none
    | _, _ => none

/-- Python `int(s, base)` (for bases 2, 10, 16): optional surrounding whitespace, an
optional sign, then at least one digit of the base; anything else raises
`ValueError`, embedded as `none`.  (Python's underscore digit grouping is not used by
the repository's sources and is not modelled.) -/
def pyIntBase (base : Nat) (s : List Char) : Option Int :=
  let t := pyStrip s
  let (sign, digits) : Int × List Char :=
    if pyStartsWith t ['-'] then (-1, t.drop 1)
    else if pyStartsWith t ['+'] then (1, t.drop 1)
    else (1, t)
  if digits.isEmpty then none
  else (pyDigits base digits (some 0)).map (fun n => sign * (n : Int))

/-- `Opcode[name]`: enum lookup by member name. -/
def Opcode.fromName (s : List Char) : Option Opcode :=
  if s = "ADD".data then some .ADD else if s = "ADDS".data then some .ADDS
  else if s = "ADDI".data then some .ADDI else if s = "ADDIS".data then some .ADDIS
  else if s = "SUB".data then some .SUB else if s = "SUBS".data then some .SUBS
  else if s = "SUBI".data then some .SUBI else if s = "SUBIS".data then some .SUBIS
  else if s = "MUL".data then some .MUL else if s = "MULI".data then some .MULI
  else if s = "DIV".data then some .DIV else if s = "DIVI".data then some .DIVI
  else if s = "AND".data then some .AND else if s = "ANDI".data then some .ANDI
  else if s = "OR".data then some .OR else if s = "ORI".data then some .ORI
  else if s = "XOR".data then some .XOR else if s = "XORI".data then some .XORI
  else if s = "SHL".data then some .SHL else if s = "SHR".data then some .SHR
  else if s = "CMP".data then some .CMP else if s = "MOD".data then some .MOD
  else if s = "MODI".data then some .MODI else if s = "MOV".data then some .MOV
  else if s = "MOVI".data then some .MOVI
  else if s = "LDR".data then some .LDR else if s = "STR".data then some .STR
  else if s = "JMP".data then some .JMP else if s = "BEQ".data then some .BEQ
  else if s = "BLT".data then some .BLT else if s = "CAL".data then some .CAL
  else if s = "FLUSH".data then some .FLUSH
  else none

/-- `src/assembler.py` — `@dataclass class Symbol` (named `AsmSymbol` here because Lean's
library already has a `Symbol`). -/
structure AsmSymbol where
  name : List Char
  address : Int
deriving DecidableEq

/-- `src/assembler.py` — `class Assembler` state: the (insertion-ordered) symbol
dictionary, the running address, and the error list.  `add_error` formats
`"Line {line_num}: {message}"`; the embedding keeps the pair. -/
structure Assembler where
  symbols : List (List Char × AsmSymbol) := []
  current_address : Int := 0
  errors : List (Nat × List Char) := []
deriving DecidableEq

namespace Assembler

/-- `Assembler.add_error(line_num, message)`. -/
def add_error (self : Assembler) (line_num : Nat) (message : List Char) : Assembler :=
  { self with errors := self.errors ++ [(line_num, message)] }

/-- `label in self.symbols` (dictionary key membership). -/
def hasSymbol (self : Assembler) (label : List Char) : Bool :=
  self.symbols.any (fun p => p.1 = label)

/-- `self.symbols[label].address` (0 when absent; the sources only call this after a
membership test). -/
def symbolAddress (self : Assembler) (label : List Char) : Int :=
  ((self.symbols.find? (fun p => p.1 = label)).map (fun p => p.2.address)).getD 0

/-- `src/assembler.py` lines 30–47 — `Assembler.parse_register(reg_str)`. -/
def parse_register (reg_str : List Char) : Option Int :=
  if reg_str.isEmpty then none
  else
    let reg_str := pyLower (pyStrip reg_str)
    if ¬ pyStartsWith reg_str ['r'] then none
    else
      match pyIntBase 10 (reg_str.drop 1) with
      | some reg_num => if 0 ≤ reg_num ∧ reg_num ≤ 31 then some reg_num else none
      | none => none

/-- `src/assembler.py` lines 49–62 — `Assembler.parse_immediate(imm_str)`. -/
def parse_immediate (imm_str : List Char) : Option Int :=
  if pyStartsWith imm_str "0x".data then pyIntBase 16 (imm_str.drop 2)
  else if pyStartsWith imm_str "0b".data then pyIntBase 2 (imm_str.drop 2)
  else pyIntBase 10 imm_str

/-- `src/assembler.py` lines 64–86 — `Assembler.parse_memory_operand(operand)`. -/
def parse_memory_operand (operand : List Char) : Option Int × Option Int :=
  let operand := pyStrip operand
  if ¬ (pyStartsWith operand ['['] ∧ pyEndsWith operand [']']) then (none, none)
  else
    let operand := pyStrip ((operand.drop 1).dropLast)
    if ¬ operand.contains ',' then (none, none)
    else
      match pyRSplitChar1 ',' operand with
      | [base, offset] =>
        (parse_register (pyStrip base), parse_immediate (pyStrip offset))
      | _ => (none, none)

/-- `src/assembler.py` lines 88–363 — `Assembler.parse_instruction(line, line_num,
resolve_labels)`.  Returns the parsed instruction (or `none`) together with the
assembler state (which accumulates errors).  `Opcode[mnemonic]` lookups are guarded
by the membership tests, so the `getD .ADD` fallback is unreachable. -/
def parse_instruction (self : Assembler) (line : List Char) (line_num : Nat)
    (resolve_labels : Bool) : Option Instruction × Assembler :=
  let line := pyStrip ((pySplitChar '#' line).headD [])
  if line.isEmpty then (none, self)
  else
    match pySplitWhitespace1 line with
    | [] => (none, self)
    | part0 :: partsRest =>
      let mnemonic := pyUpper part0
      let operands : List (List Char) :=
        match partsRest with
        | [] => []
        | rest :: _ =>
          if mnemonic = "LDR".data ∨ mnemonic = "STR".data then
            (pySplitChar1 ',' rest).map pyStrip
          else
            (pySplitChar ',' rest).map pyStrip
      if ["ADD".data, "ADDS".data, "SUB".data, "SUBS".data, "MUL".data, "DIV".data,
          "AND".data, "OR".data, "XOR".data, "MOD".data].contains mnemonic then
        if operands.length ≠ 3 then
          (none, self.add_error line_num ("Expected 3 operands for ".data ++ mnemonic))
        else
          match parse_register (operands.getD 0 []), parse_register (operands.getD 1 []),
              parse_register (operands.getD 2 []) with
          | none, _, _ =>
            (none, self.add_error line_num
              ("Invalid destination register: ".data ++ operands.getD 0 []))
          | some _, none, _ =>
            (none, self.add_error line_num
              ("Invalid source register 1: ".data ++ operands.getD 1 []))
          | some _, some _, none =>
            (none, self.add_error line_num
              ("Invalid source register 2: ".data ++ operands.getD 2 []))
          | some rd, some rs1, some rs2 =>
            (some { ty := InstructionType.ARITHMETIC,
                    opcode := (Opcode.fromName mnemonic).getD Opcode.ADD,
                    rd := rd, rs1 := rs1, rs2 := rs2, imm := 0 }, self)
      else if ["ADDI".data, "ADDIS".data, "SUBI".data, "SUBIS".data, "MULI".data,
          "DIVI".data, "ANDI".data, "ORI".data, "XORI".data, "MODI".data,
          "MOVI".data].contains mnemonic then
        if operands.length ≠ 2 ∧ operands.length ≠ 3 then
          (none, self.add_error line_num ("Expected 2 or 3 operands for ".data ++ mnemonic))
        else
          match parse_register (operands.getD 0 []) with
          | none =>
            (none, self.add_error line_num
              ("Invalid destination register: ".data ++ operands.getD 0 []))
          | some rd =>
            if operands.length = 2 then
              match parse_immediate (operands.getD 1 []) with
              | none =>
                (none, self.add_error line_num
                  ("Invalid immediate value: ".data ++ operands.getD 1 []))
              | some imm =>
                (some { ty := InstructionType.ARITHMETIC,
                        opcode := (Opcode.fromName mnemonic).getD Opcode.ADD,
                        rd := rd, rs1 := 0, rs2 := 0, imm := imm }, self)
            else
              match parse_register (operands.getD 1 []) with
              | none =>
                (none, self.add_error line_num
                  ("Invalid source register: ".data ++ operands.getD 1 []))
              | some rs1 =>
                match parse_immediate (operands.getD 2 []) with
                | none =>
                  (none, self.add_error line_num
                    ("Invalid immediate value: ".data ++ operands.getD 2 []))
                | some imm =>
                  (some { ty := InstructionType.ARITHMETIC,
                          opcode := (Opcode.fromName mnemonic).getD Opcode.ADD,
                          rd := rd, rs1 := rs1, rs2 := 0, imm := imm }, self)
      else if mnemonic = "CMP".data then
        if operands.length ≠ 2 then
          (none, self.add_error line_num ("Expected 2 operands for ".data ++ mnemonic))
        else
          match parse_register (operands.getD 0 []), parse_register (operands.getD 1 []) with
          | none, _ =>
            (none, self.add_error line_num
              ("Invalid source register 1: ".data ++ operands.getD 0 []))
          | some _, none =>
            (none, self.add_error line_num
              ("Invalid source register 2: ".data ++ operands.getD 1 []))
          | some rs1, some rs2 =>
            (some { ty := InstructionType.ARITHMETIC, opcode := Opcode.CMP,
                    rd := 0, rs1 := rs1, rs2 := rs2, imm := 0 }, self)
      else if mnemonic = "LDR".data ∨ mnemonic = "STR".data then
        if operands.length ≠ 2 then
          (none, self.add_error line_num ("Expected 2 operands for ".data ++ mnemonic))
        else if mnemonic = "LDR".data then
          match parse_register (operands.getD 0 []) with
          | none =>
            (none, self.add_error line_num
              ("Invalid destination register: ".data ++ operands.getD 0 []))
          | some rd =>
            match parse_memory_operand (operands.getD 1 []) with
            | (none, _) =>
              (none, self.add_error line_num
                "Memory operand must be in [base, offset] format".data)
            | (some _, none) =>
              (none, self.add_error line_num "Invalid offset in memory operand".data)
            | (some rs1, some imm) =>
              (some { ty := InstructionType.MEMORY, opcode := Opcode.LDR,
                      rd := rd, rs1 := rs1, rs2 := 0, imm := imm }, self)
        else
          match parse_register (operands.getD 0 []) with
          | none =>
            (none, self.add_error line_num
              ("Invalid source register: ".data ++ operands.getD 0 []))
          | some rs2 =>
            match parse_memory_operand (operands.getD 1 []) with
            | (none, _) =>
              (none, self.add_error line_num
                "Memory operand must be in [base, offset] format".data)
            | (some _, none) =>
              (none, self.add_error line_num "Invalid offset in memory operand".data)
            | (some rs1, some imm) =>
              (some { ty := InstructionType.MEMORY, opcode := Opcode.STR,
                      rd := 0, rs1 := rs1, rs2 := rs2, imm := imm }, self)
      else if mnemonic = "BEQ".data ∨ mnemonic = "BLT".data then
        if operands.length ≠ 1 then
          (none, self.add_error line_num ("Expected 1 operand for ".data ++ mnemonic))
        else
          match parse_immediate (operands.getD 0 []) with
          | some imm =>
            (some { ty := InstructionType.CONTROL,
                    opcode := (Opcode.fromName mnemonic).getD Opcode.BEQ,
                    rd := 0, rs1 := 0, rs2 := 0, imm := imm }, self)
          | none =>
            if resolve_labels ∧ ¬ self.hasSymbol (operands.getD 0 []) then
              (none, self.add_error line_num
                ("Undefined label: ".data ++ operands.getD 0 []))
            else
              let imm :=
                if resolve_labels then
                  let target_addr := self.symbolAddress (operands.getD 0 [])
                  let current_addr := self.current_address + 4
                  Int.shiftRight (target_addr - current_addr) 2
                else 0
              (some { ty := InstructionType.CONTROL,
                      opcode := (Opcode.fromName mnemonic).getD Opcode.BEQ,
                      rd := 0, rs1 := 0, rs2 := 0, imm := imm }, self)
      else if mnemonic = "JMP".data then
        if operands.length ≠ 1 then
          (none, self.add_error line_num ("Expected 1 operand for ".data ++ mnemonic))
        else
          match parse_register (operands.getD 0 []) with
          | some rs1 =>
            (some { ty := InstructionType.CONTROL, opcode := Opcode.JMP,
                    rd := 0, rs1 := rs1, rs2 := 0, imm := 0 }, self)
          | none =>
            if resolve_labels ∧ ¬ self.hasSymbol (operands.getD 0 []) then
              (none, self.add_error line_num
                ("Undefined label: ".data ++ operands.getD 0 []))
            else
              let imm :=
                if resolve_labels then
                  let target_addr := self.symbolAddress (operands.getD 0 [])
                  let current_addr := self.current_address + 4
                  Int.shiftRight (target_addr - current_addr) 2
                else 0
              (some { ty := InstructionType.CONTROL, opcode := Opcode.JMP,
                      rd := 0, rs1 := 0, rs2 := 0, imm := imm }, self)
      else if mnemonic = "CAL".data ∨ mnemonic = "FLUSH".data then
        if operands.length ≠ 1 then
          (none, self.add_error line_num ("Expected 1 operand for ".data ++ mnemonic))
        else
          match parse_register (operands.getD 0 []) with
          | none => (none, self.add_error line_num "Invalid register".data)
          | some rs1 =>
            (some { ty := InstructionType.CONTROL,
                    opcode := (Opcode.fromName mnemonic).getD Opcode.CAL,
                    rd := 0, rs1 := rs1, rs2 := 0, imm := 0 }, self)
      else
        (none, self.add_error line_num ("Unknown instruction: ".data ++ mnemonic))

/-- Pass 1 of `assemble` (`src/assembler.py` lines 372–391): collect labels and count
instruction addresses. -/
def pass1 (self : Assembler) : List (Nat × List Char) → Assembler
  | [] => self
  | (i, line) :: rest =>
    let line := pyStrip line
    if line.isEmpty ∨ pyStartsWith line ['#'] then pass1 self rest
    else if pyEndsWith line [':'] then
      let label := pyStrip line.dropLast
      let self :=
        if self.hasSymbol label then
          self.add_error i ("Duplicate label: ".data ++ label)
        else
          { self with symbols := self.symbols ++
              [(label, { name := label, address := self.current_address })] }
      pass1 self rest
    else pass1 { self with current_address := self.current_address + 4 } rest

/-- Pass 2 of `assemble` (`src/assembler.py` lines 393–429), including the source's
early-`return` clause: after emitting a `BEQ`, if some symbol's address equals
`current_address + (imm << 2)`, assembly stops and returns what has been emitted so
far. -/
def pass2 (self : Assembler) (acc : List Int) :
    List (Nat × List Char) → List Int × Assembler
  | [] => (acc, self)
  | (i, line) :: rest =>
    let line := pyStrip line
    if line.isEmpty ∨ pyStartsWith line ['#'] then pass2 self acc rest
    else if pyEndsWith line [':'] then pass2 self acc rest
    else
      match self.parse_instruction line i true with
      | (none, self) => pass2 self acc rest
      | (some instr, self) =>
        let acc := acc ++ [instr.encode]
        let self := { self with current_address := self.current_address + 4 }
        if instr.ty = InstructionType.CONTROL ∧ instr.opcode = Opcode.BEQ ∧
            (self.symbols.any (fun p =>
              p.2.address = self.current_address + pyShiftLeft instr.imm 2)) then
          (acc, self)
        else pass2 self acc rest

/-- `src/assembler.py` lines 365–429 — `Assembler.assemble(source)`: reset, pass 1,
pass 2 (with `current_address` reset to 0 in between), returning
`(instructions, errors)`. -/
def assemble (source : List Char) : List Int × List (Nat × List Char) :=
  let lines := (pySplitChar '\n' source).enum.map (fun p => (p.1 + 1, p.2))
  let a : Assembler := {}
  let a := pass1 a lines
  let a := { a with current_address := 0 }
  let (instructions, a) := pass2 a [] lines
  (instructions, a.errors)

end Assembler

/-!
Concrete states and inputs used by the claim theorems, plus the well-formedness
predicate and list helper lemmas used by the general theorems.
-/

/-- A representative full-register arithmetic instruction, `ADD r1, r2, r3` (built the
same way the repository's tests build instructions). -/
def addInstr : Instruction :=
  { ty := InstructionType.ARITHMETIC, opcode := Opcode.ADD,
    rd := 1, rs1 := 2, rs2 := 3, imm := 0 }

/-- A register-form control instruction, `JMP r1`. -/
def jmpInstr : Instruction :=
  { ty := InstructionType.CONTROL, opcode := Opcode.JMP,
    rd := 0, rs1 := 1, rs2 := 0, imm := 0 }

/-- `JMP r0` (decodes registers r0 only, so the DECODE stage does not touch the
register file on it). -/
def jmpR0Instr : Instruction :=
  { ty := InstructionType.CONTROL, opcode := Opcode.JMP,
    rd := 0, rs1 := 0, rs2 := 0, imm := 0 }

/-- The memory system's L1 cache parameters (32 lines × 8 words, 1 cycle). -/
def theL1Cache : Cache := Cache.new 32 8 1

/-- A six-word program for exercising `load_program` (distinct words so a wrong read
is visible). -/
def progC3 : List Int := [10, 11, 12, 13, 14, 15]

/-- A cache-enabled memory system (64 memory words keep evaluation small) with
`progC3` loaded. -/
def memC3 : MemorySystem := (MemorySystem.new 64).load_program progC3

/-- A cache-disabled memory system (as `MemorySystem(64, cache_enabled=False)`). -/
def memDisabled : MemorySystem := MemorySystem.new 64 false true

/-- A pipeline whose memory holds the single instruction `ADD r1, r2, r3`. -/
def pipelineC4 : Pipeline :=
  Pipeline.new ((MemorySystem.new 64).load_program [addInstr.encode]) RegisterFile.new

/-- A pipeline with the word `0` loaded (which decodes to `ADD r0, r0, r0`, an
instruction whose DECODE never touches the register file). -/
def pipelineC6 : Pipeline :=
  Pipeline.new ((MemorySystem.new 64).load_program [0]) RegisterFile.new

/-- A sequential-mode pipeline whose PC is beyond the end of memory, so FETCH installs
a bubble and the whole five-step pass retires nothing. -/
def pipelineC6seq : Pipeline :=
  { Pipeline.new (MemorySystem.new 64) RegisterFile.new with
    enabled := false, pc := 64 * 4 }

/-- A pipeline state about to resolve `JMP r0` in EXECUTE while the MEMORY latch still
holds the older `ADD r1, r2, r3` awaiting writeback. -/
def stateC7 : Pipeline :=
  { Pipeline.new (MemorySystem.new 64) RegisterFile.new with
    decodeReg := { instruction := some jmpR0Instr },
    memoryReg := { instruction := some addInstr, rd := 1, alu_result := 5,
                   write_back := true } }

/-- The pipeline state immediately after EXECUTE resolved the jump in `stateC7`
(`flushed = True`). -/
def stateC5 : Pipeline :=
  (stateC7.execute).toOption.getD (Pipeline.new (MemorySystem.new 64) RegisterFile.new)

/-- The C9 source: a label, a `BEQ` to it, and one more instruction line after it. -/
def sourceC9 : List Char := "loop:\nbeq loop\naddi r1, r0, 1".data

/-- The state of a fresh (64-word) memory system after a first instruction fetch of
address 0. -/
def memC10first : MemorySystem :=
  match (MemorySystem.new 64).read 0 true with
  | Except.ok (_, m) => m
  | Except.error _ => MemorySystem.new 64

/-- The `(data, cycles)` result of that first fetch. -/
def resC10first : Int × Int :=
  match (MemorySystem.new 64).read 0 true with
  | Except.ok (r, _) => r
  | Except.error _ => (0, 0)

/-- Structural well-formedness of a `Cache` as Python constructs it: the line list has
`size` entries, the parameters are positive, and every line body has `line_size`
words. -/
def Cache.wf (c : Cache) : Prop :=
  c.lines.length = c.size.toNat ∧ 0 < c.size ∧ 0 < c.line_size ∧
    ∀ l ∈ c.lines, l.data.length = c.line_size.toNat

/-- Decidable equality for `Except` results (component-wise). -/
instance {ε α : Type} [DecidableEq ε] [DecidableEq α] : DecidableEq (Except ε α) :=
  fun x y =>
    match x, y with
    | .ok a, .ok b => decidable_of_iff (a = b) (by simp)
    | .error a, .error b => decidable_of_iff (a = b) (by simp)
    | .ok _, .error _ => isFalse (by simp)
    | .error _, .ok _ => isFalse (by simp)

/-- `List.set` then `getD` at the same in-range position gives the stored value. -/
theorem getD_set_self {α : Type} (l : List α) (i : Nat) (a d : α) (h : i < l.length) :
    (l.set i a).getD i d = a := by
  induction l generalizing i with
  | nil => simp at h
  | cons x xs ih =>
    cases i with
    | zero => simp
    | succ n => simpa using ih n (by simpa using h)

/-!
Shared helper lemmas for the general theorems.
-/

/-- Index bound: `(x % n).toNat < n.toNat` for positive `n`. -/
theorem emod_toNat_lt (x n : Int) (hn : 0 < n) : (x % n).toNat < n.toNat := by
  have h1 : 0 ≤ x % n := Int.emod_nonneg x hn.ne'
  have h2 : x % n < n := Int.emod_lt_of_pos x hn
  omega

/-- On a well-formed cache, a read of a just-written address hits and returns the
masked written word at `access_time` cycles (write-allocate makes the line valid with
the matching tag, and the slot holds `value & 0xFFFFFFFF`). -/
theorem cache_write_then_read (c : Cache) (a v : Int) (hwf : c.wf) :
    ((c.write a v).2.read a false).1 = (true, some (pyMask32 v), c.access_time) := by
  obtain ⟨hlen, hsize, hline, hdata⟩ := hwf
  have hidx : (c.get_line_index a).toNat < c.lines.length := by
    rw [hlen]; exact emod_toNat_lt _ _ hsize
  have hoff : ∀ l ∈ c.lines, (c.get_offset a).toNat < l.data.length := by
    intro l hl
    rw [hdata l hl]
    exact emod_toNat_lt _ _ hline
  have hmem : c.lines.getD (c.get_line_index a).toNat {} ∈ c.lines := by
    rw [List.getD_eq_getElem c.lines {} hidx]
    exact List.getElem_mem hidx
  unfold Cache.write
  by_cases hht : (c.lines.getD (c.get_line_index a).toNat {}).valid = true ∧
      (c.lines.getD (c.get_line_index a).toNat {}).tag = c.get_tag a
  case pos =>
    rw [if_pos hht]
    simp only [Cache.read, Cache.get_line_index, Cache.get_tag, Cache.get_offset]
    simp only [Cache.get_line_index, Cache.get_tag, Cache.get_offset] at hidx hoff hmem
    rw [getD_set_self _ _ _ _ hidx]
    rw [if_pos (by simpa using hht)]
    rw [getD_set_self _ _ _ _ (hoff _ hmem)]
    simp [apply_ite Cache.access_time]
  case neg =>
    rw [if_neg hht]
    by_cases hlm : some a ≠ c.last_miss_addr
    case pos =>
      rw [if_pos hlm]
      simp only [Cache.read, Cache.get_line_index, Cache.get_tag, Cache.get_offset]
      simp only [Cache.get_line_index, Cache.get_tag, Cache.get_offset] at hidx hoff hmem
      rw [getD_set_self _ _ _ _ hidx]
      rw [if_pos (by simp)]
      rw [getD_set_self _ _ _ _ (hoff _ hmem)]
      simp [apply_ite Cache.access_time]
    case neg =>
      rw [if_neg hlm]
      simp only [Cache.read, Cache.get_line_index, Cache.get_tag, Cache.get_offset]
      simp only [Cache.get_line_index, Cache.get_tag, Cache.get_offset] at hidx hoff hmem
      rw [getD_set_self _ _ _ _ hidx]
      rw [if_pos (by simp)]
      rw [getD_set_self _ _ _ _ (hoff _ hmem)]
      simp [apply_ite Cache.access_time]

/-- After a successful instruction fetch on a cache-enabled memory system, the state
records the fetched address in `last_fetch_addr`, keeps the backing store and the
cache-enabled flag, and the address was in range. -/
theorem read_fetch_ok_facts (m : MemorySystem) (a : Int) (r : Int × Int)
    (m1 : MemorySystem) (hc : m.cache_enabled = true)
    (h : m.read a true = .ok (r, m1)) :
    m1.cache_enabled = true ∧ m1.last_fetch_addr = some a ∧ m1.memory = m.memory ∧
      0 ≤ a / 4 ∧ a / 4 < (m1.memory.length : Int) := by
  unfold MemorySystem.read at h
  by_cases hrange : 0 ≤ a / 4 ∧ a / 4 < (m.memory.length : Int)
  case neg =>
    rw [if_pos (by simpa using hrange)] at h
    exact absurd h (by simp)
  case pos =>
    rw [if_neg (by simpa using hrange)] at h
    rw [if_neg (by simp [hc])] at h
    by_cases hdup : some a = m.last_fetch_addr
    case pos =>
      rw [if_pos (by simp [hdup])] at h
      obtain ⟨h1, h2⟩ := by simpa using h
      subst h2
      exact ⟨hc, hdup.symm, rfl, hrange.1, hrange.2⟩
    case neg =>
      rw [if_neg (by simp [hdup])] at h
      simp only [if_true, Bool.true_eq] at h
      rw [show ({ m with last_fetch_addr := some a } : MemorySystem).L1_cache
            = m.L1_cache from rfl] at h
      rcases hL1 : m.L1_cache.read a true with ⟨⟨hit, data, cyc⟩, L1⟩
      rw [hL1] at h
      cases hit
      case true =>
        obtain ⟨h1, h2⟩ := by simpa using h
        subst h2
        exact ⟨hc, rfl, rfl, hrange.1, hrange.2⟩
      case false =>
        rcases hL2 : m.L2_cache.read a true with ⟨⟨hit2, data2, cyc2⟩, L2⟩
        rw [hL2] at h
        cases hit2
        case true =>
          obtain ⟨h1, h2⟩ := by simpa using h
          subst h2
          exact ⟨hc, rfl, rfl, hrange.1, hrange.2⟩
        case false =>
          obtain ⟨h1, h2⟩ := by simpa using h
          subst h2
          exact ⟨hc, rfl, rfl, hrange.1, hrange.2⟩

/-!
Claim theorems.
-/

/-- C1: the round-trip `decode(encode(I)) = I` holds for the arithmetic instruction
`ADD r1, r2, r3`, but fails for the register-form control instruction `JMP r1`:
`Instruction.decode` compares the 3-bit control opcode field against the enum values
0x30/0x33/0x34 (a condition that can never hold) and then looks up
`opcode | (instr_type << 5) = 64`, which is not an `Opcode` value, so every control
word — including every encoded `JMP`/`CAL`/`FLUSH` — decodes to `none` instead of the
claimed instruction with its `rs1` preserved. -/
theorem c1_control_roundtrip_fails :
    Instruction.decode addInstr.encode = some addInstr ∧
    Instruction.decode jmpInstr.encode = none := by decide

/-- C2: the cache address decomposition of `src/memory.py` does **not** first convert
the byte address to a word index `a >> 2` as the claim states: at byte address 4 the
code's `get_offset` returns 4 where the claimed formula gives 1, at byte address 32
the code's `get_line_index` returns 4 where the claimed formula gives 1, and at byte
address 256 the code's `get_tag` returns 1 where the claimed formula gives 0
(parameters `size = 32`, `line_size = 8`). -/
theorem c2_decomposition_missing_word_shift :
    theL1Cache.get_offset 4 = 4 ∧ specOffset 8 4 = 1 ∧
    theL1Cache.get_line_index 32 = 4 ∧ specIndex 32 8 32 = 1 ∧
    theL1Cache.get_tag 256 = 1 ∧ specTag 32 8 256 = 0 := by decide

set_option maxRecDepth 40000 in
/-- C3: after `load_program([10,11,12,13,14,15])` on a cache-enabled memory system,
reading byte address 4 returns 14 — the word loaded at index 4 — rather than the
claimed `ws[1] = 11`, because `load_program` pre-warms L1 with *word-index*
decompositions while `read` probes with *byte-address* decompositions, and the stale
pre-warmed line hits.  (The claim's other part does hold at address 0: the very first
instruction fetch of byte address 0 is an L1 hit returning `ws[0] = 10` at 1 cycle.) -/
theorem c3_read_after_load_program_wrong_word :
    Except.map (fun r => r.1) (memC3.read 4 false) = .ok (14, 1) ∧
    Except.map (fun r => r.1) (memC3.read 0 true) = .ok (10, 1) := by decide

set_option maxRecDepth 40000 in
/-- C4: stepping a pipeline whose program is the single instruction `ADD r1, r2, r3`
raises an uncaught `AttributeError` on the second `step()`: the DECODE stage reads
operands via `self.registers.read(rs1)`, a method `RegisterFile` does not define, so
any instruction with `rs1 ≠ 0` or `rs2 ≠ 0` crashes the core instead of completing
without raising as the claim states. -/
theorem c4_decode_register_read_raises :
    pipelineC4.stepN 2 = .error .attributeError := by decide

set_option maxRecDepth 40000 in
/-- C5: the `stalled`/`flushed` flags are **not** cleared by the end of `step()`:
`stateC5` is the pipeline state right after EXECUTE resolved a `JMP` (so
`flushed = True`), and one further pipelined `step()` leaves the state — including
the raised `flushed` flag — completely unchanged, freezing the pipeline, contrary to
the claim that every step ends with both flags cleared. -/
theorem c5_step_does_not_clear_flags :
    stateC5.flushed = true ∧ stateC5.step = .ok stateC5 := ⟨by decide, by decide⟩

set_option maxRecDepth 40000 in
/-- C6: in pipelined mode a `step()` of a freshly loaded pipeline leaves `cycles` at 0
(the claim requires exactly 1 per step; only the sequential branch of `step` has the
`self.cycles += 1` statement), and in sequential mode five steps over a bubble (PC out
of range, so nothing is fetched or retired) still increment `instructions` to 1 (the
claim requires 0 for bubbles; the sequential branch increments `instructions`
unconditionally at the writeback stage). -/
theorem c6_cycle_and_instruction_counters :
    Except.map Pipeline.cycles pipelineC6.step = .ok 0 ∧
    Except.map (fun p => (p.cycles, p.instructions)) (pipelineC6seq.stepN 5)
      = .ok (5, 1) := by decide

set_option maxRecDepth 40000 in
/-- C7: when EXECUTE resolves the `JMP` in `stateC7`, the pipeline does raise
`flushed`, but `flush_pipeline` clears the instruction latches of **all five** stages
— the `ADD` that was waiting in the MEMORY latch is wiped (the claim says EXECUTE,
MEMORY and WRITEBACK latches are unaffected) — and `flush_count` stays 0 (the claim
says it is incremented once per flush; no statement in the source ever increments
it). -/
theorem c7_flush_clears_all_latches_and_skips_count :
    Except.map (fun p => (p.flushed, p.memoryReg.instruction, p.flush_count))
      stateC7.execute = .ok (true, none, 0) ∧
    stateC7.memoryReg.instruction = some addInstr := by decide

set_option maxRecDepth 40000 in
/-- C8 counterexample: on a cache-disabled memory system, `write(0, 2^32)` followed by
`read(0)` returns the raw value `2^32 = 4294967296` and not
`2^32 & 0xFFFFFFFF = 0` as the claim requires for every value regardless of cache
enablement — the cache-disabled write path stores the unmasked value in the backing
store. -/
theorem c8_counterexample_raw_readback :
    Except.map (fun r => r.1.1)
      ((memDisabled.write 0 4294967296).bind (fun r => r.2.read 0 false))
      = .ok 4294967296 ∧
    Except.map (fun r => r.1.1)
      ((memDisabled.write 0 4294967296).bind (fun r => r.2.read 0 false))
      ≠ .ok (pyMask32 4294967296) := by decide

/-- C8 (amended): for every in-range byte address and every value `v` representable
in the `np.int64` backing store (`-2^63 ≤ v < 2^63`), `write(a, v)` followed by
`read(a)` returns `v & 0xFFFFFFFF` when the cache is enabled (the read hits the
freshly allocated L1 line, which stores the masked value); when the cache is disabled
the raw `v` is returned (which equals `v & 0xFFFFFFFF` exactly when `0 ≤ v < 2^32`).
For `v` outside the int64 range, `write` itself raises `OverflowError` in either
mode, so no word is read back at all. -/
theorem c8_write_read_returns_masked_word (m : MemorySystem) (a v : Int)
    (hrange : 0 ≤ a / 4 ∧ a / 4 < (m.memory.length : Int))
    (hwf : m.L1_cache.wf) :
    (-9223372036854775808 ≤ v ∧ v < 9223372036854775808 →
      (m.cache_enabled = true →
        Except.map (fun r => r.1.1) ((m.write a v).bind (fun r => r.2.read a false))
          = .ok (pyMask32 v)) ∧
      (m.cache_enabled = false →
        Except.map (fun r => r.1.1) ((m.write a v).bind (fun r => r.2.read a false))
          = .ok v)) ∧
    (v < -9223372036854775808 ∨ 9223372036854775808 ≤ v →
      m.write a v = .error .overflowError) := by
  have hwi : (a / 4).toNat < m.memory.length := by omega
  constructor
  · intro hv
    have hnov : ¬ (v < -9223372036854775808 ∨ 9223372036854775808 ≤ v) := by omega
    constructor
    · intro hc
      rcases hW1 : m.L1_cache.write a v with ⟨⟨hb1, cyc1⟩, L1n⟩
      rcases hW2 : m.L2_cache.write a v with ⟨⟨hb2, cyc2⟩, L2n⟩
      have hL := cache_write_then_read m.L1_cache a v hwf
      rw [hW1] at hL
      rcases hR : L1n.read a false with ⟨⟨hitb, datao, cycr⟩, L1r⟩
      rw [hR] at hL
      obtain ⟨h1, h2, h3⟩ := by simpa using hL
      subst h1
      subst h2
      simp [MemorySystem.write, MemorySystem.read, Except.bind, Except.map, List.length_set,
        hW1, hW2, hR, hc, hnov, hrange.1, hrange.2, hrange.2.not_le]
    · intro hdis
      simp [MemorySystem.write, MemorySystem.read, Except.bind, Except.map, List.length_set,
        hdis, hnov, hrange.1, hrange.2, hrange.2.not_le, getD_set_self _ _ _ _ hwi]
  · intro hov
    simp [MemorySystem.write, hov, hrange.1, hrange.2, hrange.2.not_le]

/-- C8 witness: the amended theorem applied to a fresh cache-enabled 64-word memory
system at address 8 with the int64-representable value `2^32 + 1`, whose masked
read-back is 1. -/
theorem c8_write_read_witness :
    Except.map (fun r => r.1.1) (((MemorySystem.new 64).write 8 4294967297).bind
      (fun r => r.2.read 8 false)) = .ok (pyMask32 4294967297) :=
  (((c8_write_read_returns_masked_word (MemorySystem.new 64) 8 4294967297 (by decide)
    ⟨by decide, by decide, by decide, by decide⟩).1 (by decide)).1) rfl

/-- C9: assembling `"loop:\nbeq loop\naddi r1, r0, 1"` emits only the single encoded
`BEQ` word `0x8FFFFFFF` (with no errors) and never processes the `addi` line: the
pass-2 early-termination clause returns as soon as a `BEQ` targets an address carried
by a known label, contrary to the claim (and the spec) that every line is processed
to the end of the input with one emitted word per successfully parsed instruction
line. -/
theorem c9_assemble_stops_at_beq_to_known_label :
    Assembler.assemble sourceC9 = ([2415919103], []) := by decide

set_option maxRecDepth 40000 in
/-- C10 counterexample: on a cache-disabled memory system, the second of two
back-to-back instruction-fetch reads of byte address 0 costs 100 cycles, not the
claimed 0 — the cache-disabled path of `read` charges the full memory access time on
every call, before the `last_fetch_addr` short-circuit is consulted. -/
theorem c10_counterexample_cache_disabled_cost :
    Except.map (fun r => r.1.2)
      ((memDisabled.read 0 true).bind (fun r => r.2.read 0 true)) = .ok 100 ∧
    Except.map (fun r => r.1.2)
      ((memDisabled.read 0 true).bind (fun r => r.2.read 0 true)) ≠ .ok 0 := by decide

/-- C10 (amended): on a **cache-enabled** memory system, an instruction-fetch read of
address `a` immediately followed by another instruction-fetch read of the same `a`
makes the second read return the stored word at a cost of 0 cycles with the memory
system state — and hence every L1 and L2 hit and miss counter — completely
unchanged. -/
theorem c10_repeat_fetch_free_and_state_preserving (m m1 : MemorySystem) (a : Int)
    (r1 : Int × Int) (hc : m.cache_enabled = true)
    (h1 : m.read a true = .ok (r1, m1)) :
    m1.read a true = .ok ((m1.memory.getD (a / 4).toNat 0, 0), m1) := by
  obtain ⟨hc1, hl, hmem, hr0, hrlt⟩ := read_fetch_ok_facts m a r1 m1 hc h1
  unfold MemorySystem.read
  rw [if_neg (by simpa using And.intro hr0 hrlt)]
  rw [if_neg (by simp [hc1])]
  rw [if_pos (by simp [hl])]

set_option maxRecDepth 40000 in
/-- C10 witness: the amended theorem applied to a fresh cache-enabled 64-word memory
system at address 0, after its first instruction fetch. -/
theorem c10_repeat_fetch_witness :
    memC10first.read 0 true = .ok ((memC10first.memory.getD 0 0, 0), memC10first) := by
  have h := c10_repeat_fetch_free_and_state_preserving (MemorySystem.new 64) memC10first
    0 resC10first rfl (by decide)
  simpa using h
